import Mathlib

/-!
Shallow embedding of the RISC-V CPU emulator (cpu.go, instructions.go,
registers.go, main.go). Machine integers are modelled as Nat; register and
memory banks as functions from index to value; fallible Go calls return an
explicit result value; Go runtime panics are modelled as a distinguished
crash result that propagates.
-/

namespace RiscV

/-- Register-name table built in NewCPU (cpu.go). -/
def regNames : List String :=
  ["zero", "ra", "sp", "gp", "tp", "t0", "t1", "t2", "s0", "s1",
   "a0", "a1", "a2", "a3", "a4", "a5", "a6", "a7",
   "s2", "s3", "s4", "s5", "s6", "s7", "s8", "s9", "s10", "s11",
   "t3", "t4", "t5", "t6"]

/-- The RegMap built by the loop in NewCPU: each name maps to its index in
regNames; looking up a missing key in a Go map yields the zero value 0. -/
def regMap (s : String) : Nat :=
  if regNames.contains s then regNames.indexOf s else 0

/-- Opcode constant (instructions file). -/
def ADD : Nat := 0x33

/-- Opcode constant (instructions file). -/
def ADDI : Nat := 0x13

/-- Opcode constant (instructions file). -/
def LW : Nat := 0x03

/-- Opcode constant (instructions file). -/
def SW : Nat := 0x23

/-- Opcode constant (instructions file). -/
def BEQ : Nat := 0x11

/-- Register index (registers.go). -/
def SP : Nat := 2

/-- Register index (registers.go). -/
def A0 : Nat := 10

/-- Register index (registers.go). -/
def A1 : Nat := 11

/-- Register index (registers.go). -/
def A2 : Nat := 12

/-- Register index (registers.go). -/
def A3 : Nat := 13

/-- Architectural state of the emulator (struct CPU in cpu.go). Memory is
the byte at each address (65536 bytes, length in MemLen); Regs is the value
of each of the 32 registers; PC is the program counter. The RegNames and
RegMap fields are never mutated and are modelled by the constants above. -/
structure CPU where
  Memory : Nat → Nat
  MemLen : Nat
  Regs : Nat → Nat
  PC : Nat

/-- NewCPU (cpu.go): 65536 zero bytes of memory, 32 zero registers, PC 0. -/
def NewCPU : CPU :=
  { Memory := fun _ => 0, MemLen := 65536, Regs := fun _ => 0, PC := 0 }

/-- LoadProgram (cpu.go): copy(cpu.Memory, program) overwrites the first
min(len(Memory), len(program)) bytes and keeps the rest. -/
def LoadProgram (cpu : CPU) (program : List Nat) : CPU :=
  { cpu with
    Memory := fun a =>
      if a < min program.length cpu.MemLen then program.getD a 0
      else cpu.Memory a }

/-- SetRegisterValue (cpu.go): if the name is in RegNames, write the value
at index RegMap(name) and return nil, else return an error. -/
def SetRegisterValue (cpu : CPU) (register : String) (value : Nat) :
    CPU × Option String :=
  if regNames.contains register then
    ({ cpu with Regs := fun i => if i = regMap register then value else cpu.Regs i },
     none)
  else (cpu, some "register not found")

/-- GetRegisterValue (cpu.go): if the name is in RegNames, return the value
at index RegMap(name) and nil, else 0 and an error. -/
def GetRegisterValue (cpu : CPU) (register : String) : Nat × Option String :=
  if regNames.contains register then (cpu.Regs (regMap register), none)
  else (0, some "register not found")

/-- Result of FetchAndDecode: the fetched word, or the Go runtime panic
raised by the unchecked slice expression Memory[PC : PC+4]. -/
inductive FetchResult where
  | ok (instr : Nat)
  | sliceOutOfRange
deriving DecidableEq

/-- binary.LittleEndian.Uint32 over four consecutive bytes. -/
def leWord (mem : Nat → Nat) (a : Nat) : Nat :=
  mem a + 256 * mem (a + 1) + 65536 * mem (a + 2) + 16777216 * mem (a + 3)

/-- FetchAndDecode (cpu.go): read the little-endian word at PC and advance
PC by 4. The slice Memory[PC : PC+4] has no bounds check, so when
PC + 4 exceeds the memory length the Go runtime panics; the returned err
is always nil on the normal path. -/
def FetchAndDecode (cpu : CPU) : CPU × FetchResult :=
  if cpu.PC + 4 ≤ cpu.MemLen then
    ({ cpu with PC := cpu.PC + 4 }, .ok (leWord cpu.Memory cpu.PC))
  else (cpu, .sliceOutOfRange)

/-- Result of Execute: nil, an error value, or a Go panic (the unimplemented
instruction bodies call panic, which does not return). -/
inductive ExecResult where
  | ok
  | err (msg : String)
  | panicked (msg : String)
deriving DecidableEq

/-- True when the Go call returns to its caller (nil or error), false when
it panics. -/
def ExecResult.isReturn : ExecResult → Bool
  | .ok => true
  | .err _ => true
  | .panicked _ => false

/-- Field extraction in Execute (cpu.go): mask the low 7 bits. -/
def opcodeOf (instr : Nat) : Nat := instr &&& 0x7F

/-- Field extraction in Execute (cpu.go): shift right 12, mask 3 bits. -/
def funct3Of (instr : Nat) : Nat := (instr >>> 12) &&& 0x7

/-- Field extraction in Execute (cpu.go): shift right 25, mask 7 bits. -/
def funct7Of (instr : Nat) : Nat := (instr >>> 25) &&& 0x7F

/-- Field extraction in Execute (cpu.go): shift right 15, mask 5 bits. -/
def rs1Of (instr : Nat) : Nat := (instr >>> 15) &&& 0x1F

/-- Field extraction in Execute (cpu.go): shift right 20, mask 5 bits. -/
def rs2Of (instr : Nat) : Nat := (instr >>> 20) &&& 0x1F

/-- Field extraction in Execute (cpu.go): shift right 7, mask 5 bits. -/
def rdOf (instr : Nat) : Nat := (instr >>> 7) &&& 0x1F

/-- executeAdd (cpu.go): the body holds only comments and returns nil; no
register is written. -/
def executeAdd (cpu : CPU) (instr rs1 rs2 rd : Nat) : CPU × ExecResult :=
  (cpu, .ok)

/-- executeAddi (cpu.go): panic("unimplemented"). -/
def executeAddi (cpu : CPU) (instr : Nat) : CPU × ExecResult :=
  (cpu, .panicked "unimplemented")

/-- executeLw (cpu.go): panic("unimplemented"). -/
def executeLw (cpu : CPU) (instr : Nat) : CPU × ExecResult :=
  (cpu, .panicked "unimplemented")

/-- executeSw (cpu.go): panic("unimplemented"). -/
def executeSw (cpu : CPU) (instr : Nat) : CPU × ExecResult :=
  (cpu, .panicked "unimplemented")

/-- executeBeq (cpu.go): panic("unimplemented"). -/
def executeBeq (cpu : CPU) (instr : Nat) : CPU × ExecResult :=
  (cpu, .panicked "unimplemented")

/-- Execute (cpu.go): switch on the opcode. The empty case 0x0 and any
unmatched funct3/funct7 inside the 0x33 case fall through the switch to the
final return of the unimplemented-variant error; an opcode matching no case
returns the invalid-instruction error. -/
def Execute (cpu : CPU) (instr : Nat) : CPU × ExecResult :=
  if opcodeOf instr = 0x0 then
    (cpu, .err "unimplemented instruction variant")
  else if opcodeOf instr = 0x33 then
    if funct3Of instr = 0x0 then
      if funct7Of instr = 0x00 then
        executeAdd cpu instr (rs1Of instr) (rs2Of instr) (rdOf instr)
      else if funct7Of instr = 0x20 then
        (cpu, .err "sub is unimplemented yet")
      else (cpu, .err "unimplemented instruction variant")
    else (cpu, .err "unimplemented instruction variant")
  else if opcodeOf instr = ADDI then executeAddi cpu instr
  else if opcodeOf instr = LW then executeLw cpu instr
  else if opcodeOf instr = SW then executeSw cpu instr
  else if opcodeOf instr = BEQ then executeBeq cpu instr
  else (cpu, .err "invalid instruction")

/-- Outcome of the Run loop under a fuel bound: still looping when fuel runs
out, or aborted by a Go panic. Run itself returns no value in the source, so
there is no error-carrying outcome. -/
inductive RunOutcome where
  | fuelOut (cpu : CPU)
  | crashed (cpu : CPU) (msg : String)

/-- True when the loop was still running when fuel ran out. -/
def RunOutcome.isFuelOut : RunOutcome → Bool
  | .fuelOut _ => true
  | .crashed _ _ => false

/-- Program counter of the state carried by the outcome. -/
def RunOutcome.pc : RunOutcome → Nat
  | .fuelOut c => c.PC
  | .crashed c _ => c.PC

/-- Run (cpu.go): an unconditional loop that fetches and executes. The
fetch error is checked but is always nil; a fetch panic or an execute panic
aborts the process; the value returned by Execute is discarded, so an
execute error does not stop the loop. Modelled with explicit fuel. -/
def Run : Nat → CPU → RunOutcome
  | 0, cpu => .fuelOut cpu
  | fuel + 1, cpu =>
    match FetchAndDecode cpu with
    | (c, .sliceOutOfRange) => .crashed c "slice bounds out of range"
    | (c, .ok instr) =>
      match Execute c instr with
      | (c2, .panicked m) => .crashed c2 m
      | (c2, _) => Run fuel c2

/-- Outcome of the bounded driver loop in main.go. -/
inductive MainOutcome where
  | completed
  | execErr (msg : String)
  | crashed (msg : String)
deriving DecidableEq

/-- The loop in main (main.go): for each of the given number of steps,
fetch then execute, returning early with the error when Execute fails; a
panic aborts. -/
def mainRun : Nat → CPU → CPU × MainOutcome
  | 0, cpu => (cpu, .completed)
  | n + 1, cpu =>
    match FetchAndDecode cpu with
    | (c, .sliceOutOfRange) => (c, .crashed "slice bounds out of range")
    | (c, .ok instr) =>
      match Execute c instr with
      | (c2, .ok) => mainRun n c2
      | (c2, .err m) => (c2, .execErr m)
      | (c2, .panicked m) => (c2, .crashed m)

/-- The five hardcoded instruction words of main.go. -/
def demoWords : List Nat :=
  [0x12345537, 0x02A00593, 0x00B50633, 0x40B606B3, 0x00C12023]

/-- binary.LittleEndian.PutUint32: a word as four little-endian bytes. -/
def putUint32LE (w : Nat) : List Nat :=
  [w % 256, w / 256 % 256, w / 65536 % 256, w / 16777216 % 256]

/-- The byte image main.go builds from demoWords. -/
def demoProgram : List Nat := (demoWords.map putUint32LE).flatten

/-- A fresh CPU with the demo program loaded at offset 0 (main.go). -/
def demoCPU : CPU := LoadProgram NewCPU demoProgram

/-- CPU seeded through the public register interface with a0 = 0x12345000
and a1 = 42, the precondition of the ADD round-trip scenario. -/
def addScenarioCPU : CPU :=
  (SetRegisterValue (SetRegisterValue NewCPU "a0" 0x12345000).fst "a1" 42).fst

/-- CPU seeded through the public register interface with a2 = 0x1234502A
and a1 = 42, the precondition of the SUB scenario. -/
def subScenarioCPU : CPU :=
  (SetRegisterValue (SetRegisterValue NewCPU "a2" 0x1234502A).fst "a1" 42).fst

/-- CPU whose sp register holds the misaligned address 1. -/
def misalignedCPU : CPU := (SetRegisterValue NewCPU "sp" 1).fst

/-- Claim C1: the zero register is claimed hard-wired to zero at the public
register interface. The code has no such guard: SetRegisterValue on name
zero with value 1 succeeds and stores 1, and GetRegisterValue on zero then
returns 1, not 0. -/
theorem c1_zero_register_write_lands :
    (SetRegisterValue NewCPU "zero" 1).snd = none ∧
    (GetRegisterValue (SetRegisterValue NewCPU "zero" 1).fst "zero").fst = 1 ∧
    (GetRegisterValue (SetRegisterValue NewCPU "zero" 1).fst "zero").snd = none := by
  refine ⟨?_, ?_, ?_⟩ <;> decide

/-- Claim C2: the end-to-end demo scenario is claimed to complete 5 steps
with a0 = 0x12345000, a1 = 0x2A, a2 = 0x1234502A, a3 = 0x12345000. The code
stops at step 1: Execute has no case for opcode 0x37 (LUI), so the first
instruction 0x12345537 fails with the invalid-instruction error; the loop
returns with PC = 4 and a0, a1, a2, a3 all still 0. -/
theorem c2_demo_run_stops_at_step_one :
    (mainRun 5 demoCPU).snd = .execErr "invalid instruction" ∧
    (mainRun 5 demoCPU).fst.PC = 4 ∧
    (mainRun 5 demoCPU).fst.Regs A0 = 0 ∧
    (mainRun 5 demoCPU).fst.Regs A1 = 0 ∧
    (mainRun 5 demoCPU).fst.Regs A2 = 0 ∧
    (mainRun 5 demoCPU).fst.Regs A3 = 0 := by
  refine ⟨?_, ?_, ?_, ?_, ?_, ?_⟩ <;> decide

/-- Claim C3: executing the decoded ADD is claimed to write the wrapping
sum of rs1 and rs2 into rd, so that ADD a2, a0, a1 with a0 = 0x12345000 and
a1 = 42 yields a2 = 0x1234502A. The body of executeAdd only returns nil:
Execute on the encoded ADD 0x00B50633 succeeds but a2 stays 0. -/
theorem c3_add_writes_no_register :
    (Execute addScenarioCPU 0x00B50633).snd = .ok ∧
    addScenarioCPU.Regs A0 = 0x12345000 ∧
    addScenarioCPU.Regs A1 = 42 ∧
    (Execute addScenarioCPU 0x00B50633).fst.Regs A2 = 0 ∧
    (0 : Nat) ≠ 0x1234502A := by
  refine ⟨?_, ?_, ?_, ?_, ?_⟩ <;> decide

/-- Claim C4: a word with opcode 0x33, funct3 0x0, funct7 0x20 is claimed
to execute as SUB, writing the wrapping difference into rd. The code
recognises the funct7 = 0x20 variant but returns the error sub is
unimplemented yet; executing 0x40B606B3 (SUB a3, a2, a1) with a2 =
0x1234502A and a1 = 42 writes nothing and a3 stays 0. -/
theorem c4_sub_returns_unimplemented_error :
    opcodeOf 0x40B606B3 = 0x33 ∧
    funct3Of 0x40B606B3 = 0x0 ∧
    funct7Of 0x40B606B3 = 0x20 ∧
    (Execute subScenarioCPU 0x40B606B3).snd = .err "sub is unimplemented yet" ∧
    (Execute subScenarioCPU 0x40B606B3).fst.Regs A3 = 0 := by
  refine ⟨?_, ?_, ?_, ?_, ?_⟩ <;> decide

/-- Claim C5: for every 32-bit word the decoder extracts opcode as the low
7 bits, funct7 as bits 31 to 25, rs2 as bits 24 to 20, rs1 as bits 19 to
15, funct3 as bits 14 to 12 and rd as bits 11 to 7; the shift-and-mask
extractors used by Execute equal the corresponding bit slices. -/
theorem c5_field_extraction (w : Nat) (h : w < 2 ^ 32) :
    opcodeOf w = w % 2 ^ 7 ∧
    funct7Of w = w / 2 ^ 25 ∧
    rs2Of w = w / 2 ^ 20 % 2 ^ 5 ∧
    rs1Of w = w / 2 ^ 15 % 2 ^ 5 ∧
    funct3Of w = w / 2 ^ 12 % 2 ^ 3 ∧
    rdOf w = w / 2 ^ 7 % 2 ^ 5 := by
  have m7 : ∀ x : Nat, x &&& 0x7F = x % 2 ^ 7 := fun x =>
    Nat.and_pow_two_sub_one_eq_mod x 7
  have m5 : ∀ x : Nat, x &&& 0x1F = x % 2 ^ 5 := fun x =>
    Nat.and_pow_two_sub_one_eq_mod x 5
  have m3 : ∀ x : Nat, x &&& 0x7 = x % 2 ^ 3 := fun x =>
    Nat.and_pow_two_sub_one_eq_mod x 3
  unfold opcodeOf funct7Of rs2Of rs1Of funct3Of rdOf
  rw [m7, m7, m5, m5, m3, m5, Nat.shiftRight_eq_div_pow,
    Nat.shiftRight_eq_div_pow, Nat.shiftRight_eq_div_pow,
    Nat.shiftRight_eq_div_pow, Nat.shiftRight_eq_div_pow]
  refine ⟨rfl, ?_, rfl, rfl, rfl, rfl⟩
  omega

/-- Witness for C5 at the concrete word 0x40B606B3. -/
theorem c5_field_extraction_witness :
    (0x40B606B3 : Nat) < 2 ^ 32 ∧
    (opcodeOf 0x40B606B3 = 0x40B606B3 % 2 ^ 7 ∧
     funct7Of 0x40B606B3 = 0x40B606B3 / 2 ^ 25 ∧
     rs2Of 0x40B606B3 = 0x40B606B3 / 2 ^ 20 % 2 ^ 5 ∧
     rs1Of 0x40B606B3 = 0x40B606B3 / 2 ^ 15 % 2 ^ 5 ∧
     funct3Of 0x40B606B3 = 0x40B606B3 / 2 ^ 12 % 2 ^ 3 ∧
     rdOf 0x40B606B3 = 0x40B606B3 / 2 ^ 7 % 2 ^ 5) :=
  ⟨by decide, c5_field_extraction 0x40B606B3 (by decide)⟩

/-- Claim C6 counterexample: the word 0 has opcode 0x0, which is outside
the claimed set, yet Execute fails with the unimplemented-instruction-
variant error rather than the invalid-instruction (UnknownInstruction)
error. -/
theorem c6_counterexample :
    opcodeOf 0 ∉ ([0x33, 0x13, 0x03, 0x23, 0x37, 0x11] : List Nat) ∧
    (Execute NewCPU 0).snd = .err "unimplemented instruction variant" ∧
    (Execute NewCPU 0).snd ≠ .err "invalid instruction" := by
  refine ⟨by decide, by decide, by decide⟩

/-- Claim C6 as amended: for every word whose opcode is outside
0x0, 0x33, 0x13, 0x03, 0x23, 0x37 and 0x11, Execute fails with the
invalid-instruction error and the state is returned unchanged. -/
theorem c6_unknown_opcode_invalid_instruction (cpu : CPU) (instr : Nat)
    (h : opcodeOf instr ∉ ([0x0, 0x33, 0x13, 0x03, 0x23, 0x37, 0x11] : List Nat)) :
    Execute cpu instr = (cpu, .err "invalid instruction") := by
  simp only [List.mem_cons, List.not_mem_nil, or_false, not_or] at h
  obtain ⟨h0, h33, h13, h03, h23, _, h11⟩ := h
  unfold Execute ADDI LW SW BEQ
  rw [if_neg h0, if_neg h33, if_neg h13, if_neg h03, if_neg h23, if_neg h11]

/-- Witness for C6 at the concrete word 0x7F. -/
theorem c6_unknown_opcode_invalid_instruction_witness :
    opcodeOf 0x7F ∉ ([0x0, 0x33, 0x13, 0x03, 0x23, 0x37, 0x11] : List Nat) ∧
    Execute NewCPU 0x7F = (NewCPU, .err "invalid instruction") :=
  ⟨by decide, c6_unknown_opcode_invalid_instruction NewCPU 0x7F (by decide)⟩

/-- Claim C7: an out-of-bounds fetch is claimed to fail with a returned
FetchOutOfBounds error. FetchAndDecode performs the slice Memory[PC:PC+4]
with no bounds check, so at PC = 65533 (PC + 4 = 65537 > 65536) the Go
runtime panics instead of returning an error; an in-bounds fetch at PC = 0
does return the little-endian word. -/
theorem c7_fetch_out_of_bounds_is_crash :
    (FetchAndDecode { NewCPU with PC := 65533 }).snd = .sliceOutOfRange ∧
    (FetchAndDecode demoCPU).snd = .ok 0x12345537 ∧
    (FetchAndDecode demoCPU).fst.PC = 4 := by
  refine ⟨?_, ?_, ?_⟩ <;> decide

/-- Claim C8: a failing step is claimed to terminate run() and surface the
error. On a fresh CPU every fetched word is 0 and Execute returns the
unimplemented-instruction-variant error at each step, yet Run discards the
result of Execute and keeps looping: after 3 fuel units it is still
running with PC = 12, and Run returns no error value at all. -/
theorem c8_run_swallows_execute_errors :
    (mainRun 1 NewCPU).snd = .execErr "unimplemented instruction variant" ∧
    (Run 3 NewCPU).isFuelOut = true ∧
    (Run 3 NewCPU).pc = 12 := by
  refine ⟨?_, ?_, ?_⟩ <;> decide

/-- Claim C9: a misaligned word access via LW or SW is claimed to fail with
a MisalignedAccess error. executeSw and executeLw contain only
panic("unimplemented"): executing SW a2, 0(sp) with sp = 1 (misaligned)
panics with that message instead, and LW (opcode 0x03) panics the same
way; no register or memory byte is touched because nothing executes. -/
theorem c9_misaligned_access_panics_unimplemented :
    (Execute misalignedCPU 0x00C12023).snd = .panicked "unimplemented" ∧
    misalignedCPU.Regs SP = 1 ∧
    (Execute misalignedCPU 0x00C12023).fst.Regs SP = 1 ∧
    (Execute misalignedCPU 0x00000003).snd = .panicked "unimplemented" := by
  refine ⟨?_, ?_, ?_, ?_⟩ <;> decide

/-- Claim C10: whenever Execute returns (nil or an error, not a panic), it
leaves every register, every memory byte and the PC unchanged: the state it
hands back is exactly the state it was given. -/
theorem c10_execute_preserves_state (cpu : CPU) (instr : Nat)
    (h : ((Execute cpu instr).snd).isReturn = true) :
    (Execute cpu instr).fst = cpu := by
  unfold Execute executeAdd executeAddi executeLw executeSw executeBeq
  split_ifs <;> rfl

/-- Witness for C10 at the encoded ADD 0x00B50633 on a fresh CPU: the call
returns nil and the state is unchanged. -/
theorem c10_execute_preserves_state_witness :
    ((Execute NewCPU 0x00B50633).snd).isReturn = true ∧
    (Execute NewCPU 0x00B50633).fst = NewCPU :=
  ⟨by decide, c10_execute_preserves_state NewCPU 0x00B50633 (by decide)⟩

end RiscV
